import Mathlib

/-!
Verification of the core rendering and differentiation engine of a 3D
Gaussian Splatting renderer (crate brush-render, file render.rs).

The host orchestration of render.rs is embedded shallowly: tensors are
shapes plus flat data, GPU kernel dispatches are recorded as events in a
trace, and each WGSL shader (whose source is outside the embedded crate)
is abstracted as an arbitrary function of exactly the buffers the
dispatch binds as inputs, together with spec-derived conformance
predicates where a property depends on what a shader writes.
-/

namespace Brush

/-- A tensor handle: a shape and flattened (row-major) buffer contents.
Scalar contents are abstracted as `Nat` (GPU-side f32/u32 bit patterns;
no claim depends on float arithmetic, and `bitcast_tensor` is the
identity on this representation). -/
structure GTensor where
  shape : List Nat
  data : List Nat
deriving DecidableEq, Repr

/-- Result of a Rust computation that may `panic!` (fatal assertion). -/
inductive PanicOr (α : Type) where
  | ok (val : α)
  | panicked (msg : String)
deriving DecidableEq, Repr

/-- Host-side events of one render call, in program order: buffer
allocations (`create_tensor`, uninitialized), zero-filled allocations
(`int_zeros` / `float_zeros`), and GPU kernel dispatches with the names
of the buffers bound read-only and read-write. -/
inductive Event where
  | alloc (name : String) (shape : List Nat)
  | zeroAlloc (name : String) (shape : List Nat)
  | dispatch (kern : String) (reads : List String) (writes : List String)
deriving DecidableEq, Repr

/-- Modelled from the spec: the compile-time tile size
`shaders::rasterize::TILE_WIDTH` (generated shader constants are not
among the sources); spec section 6 fixes it as compile-time, typically 16. -/
def TILE_WIDTH : Nat := 16

/-- `u32::div_ceil`. -/
def divCeil (a b : Nat) : Nat := (a + b - 1) / b

/-- render.rs lines 33-35: number of SH coefficients for a degree. -/
def num_sh_coeffs (degree : Nat) : Nat := (degree + 1) ^ 2

/-- render.rs lines 37-46: SH degree from the per-channel coefficient
count; panics on a count outside 1, 4, 9, 16, 25. -/
def sh_degree_from_coeffs (coeffs_per_channel : Nat) : PanicOr Nat :=
  if coeffs_per_channel = 1 then .ok 0
  else if coeffs_per_channel = 4 then .ok 1
  else if coeffs_per_channel = 9 then .ok 2
  else if coeffs_per_channel = 16 then .ok 3
  else if coeffs_per_channel = 25 then .ok 4
  else .panicked "Invalid nr. of sh bases"

/-- Modelled from the spec: `DimCheck` (crate module `dim_check` is not
among the sources). Per the call sites at render.rs lines 66-71 the named
dimension D must agree across all five tensors and the fixed dimensions
must match (3 / 3 / 4 columns, ranks 2,2,2,2,1); per spec section 7 a
mismatch is a fatal assertion raised before any dispatch. -/
def dimCheckOk (means log_scales quats sh_coeffs raw_opacities : GTensor) : Bool :=
  means.shape.length == 2 && log_scales.shape.length == 2 &&
  quats.shape.length == 2 && sh_coeffs.shape.length == 2 &&
  raw_opacities.shape.length == 1 &&
  means.shape.getD 1 0 == 3 && log_scales.shape.getD 1 0 == 3 &&
  quats.shape.getD 1 0 == 4 &&
  log_scales.shape.headD 0 == means.shape.headD 0 &&
  quats.shape.headD 0 == means.shape.headD 0 &&
  sh_coeffs.shape.headD 0 == means.shape.headD 0 &&
  raw_opacities.shape.headD 0 == means.shape.headD 0

/-- Inputs bound by the `ProjectSplats` dispatch (render.rs lines 125-154):
the uniform block and the five read-only parameter buffers. -/
structure ProjIn where
  camera : Nat
  img_size : Nat × Nat
  sh_degree : Nat
  means : List Nat
  log_scales : List Nat
  quats : List Nat
  sh_coeffs : List Nat
  raw_opacities : List Nat
deriving DecidableEq, Repr

/-- The nine buffers `ProjectSplats` binds read-write (render.rs lines
142-152). -/
structure ProjOut where
  arranged_ids : List Nat
  global_from_compact_gid : List Nat
  xys : List Nat
  depths : List Nat
  colors : List Nat
  radii : List Nat
  conic_comps : List Nat
  num_tiles_hit : List Nat
  num_visible : Nat
deriving DecidableEq, Repr

/-- Inputs bound by the `MapGaussiansToIntersect` dispatch (render.rs
lines 209-228). -/
structure IsectIn where
  tile_bounds : Nat × Nat
  compact_from_depthsort_gid : List Nat
  xys : List Nat
  conic_comps : List Nat
  colors : List Nat
  radii : List Nat
  cum_tiles_hit : List Nat
  num_visible : Nat
deriving DecidableEq, Repr

/-- Inputs bound by the `Rasterize` dispatch (render.rs lines 292-309). -/
structure RastIn where
  img_size : Nat × Nat
  background : Nat × Nat × Nat
  tile_bounds : Nat × Nat
  depthsort_gid_from_isect : List Nat
  compact_from_depthsort_gid : List Nat
  tile_bins : List Nat
  xys : List Nat
  conic_comps : List Nat
  colors : List Nat
deriving DecidableEq, Repr

/-- Inputs bound by the `RasterizeBackwards` dispatch (render.rs lines
531-564). -/
structure RastBwdIn where
  img_size : Nat × Nat
  background : Nat × Nat × Nat
  tile_bounds : Nat × Nat
  depthsort_gid_from_isect : List Nat
  compact_from_depthsort_gid : List Nat
  tile_bins : List Nat
  xys : List Nat
  cum_tiles_hit : List Nat
  conic_comps : List Nat
  colors : List Nat
  final_index : List Nat
  out_img : List Nat
  v_output : List Nat
deriving DecidableEq, Repr

/-- The four buffers `RasterizeBackwards` binds read-write. -/
structure RastBwdOut where
  v_xy_scatter : List Nat
  v_conic_scatter : List Nat
  v_colors_scatter : List Nat
  hit_ids : List Nat
deriving DecidableEq, Repr

/-- Inputs bound by the `ProjectBackwards` dispatch (render.rs lines
584-624). -/
structure ProjBwdIn where
  camera : Nat
  img_size : Nat × Nat
  sh_degree : Nat
  means : List Nat
  log_scales : List Nat
  quats : List Nat
  raw_opac : List Nat
  conic_comps : List Nat
  cum_tiles_hit : List Nat
  v_xy_scatter : List Nat
  v_conic_scatter : List Nat
  v_colors_scatter : List Nat
  num_visible : Nat
  global_from_compact_gid : List Nat
  compact_from_depthsort_gid : List Nat
deriving DecidableEq, Repr

/-- The six per-primitive gradient rows one `ProjectBackwards` thread
scatters for its visible primitive (spec section 4.9 step 3). -/
structure GradRows where
  r_means : List Nat
  r_xys : List Nat
  r_scales : List Nat
  r_quats : List Nat
  r_coeffs : List Nat
  r_opac : Nat
deriving DecidableEq, Repr

/-- Modelled from the spec: the numeric behavior of the WGSL shaders
(project_forward.wgsl, map_gaussian_to_intersects.wgsl,
get_tile_bin_edges.wgsl, rasterize.wgsl, rasterize_backwards.wgsl,
project_backwards.wgsl are not among the sources). Each kernel is an
arbitrary function of exactly the uniforms and buffers its dispatch in
render.rs binds as inputs; properties of what a kernel writes are taken
as spec-derived conformance hypotheses where a claim needs them. -/
structure KernelSem where
  projectSplats : ProjIn → ProjOut
  mapIntersect : IsectIn → List Nat × List Nat
  tileBinEdges : List Nat → Nat → List Nat
  rasterize : Bool → RastIn → List Nat × List Nat
  rasterizeBwd : RastBwdIn → RastBwdOut
  projectBwdRows : ProjBwdIn → Nat → GradRows

/-- Modelled from the spec: inclusive scan, the semantics of
`brush_prefix_sum::prefix_sum` (crate not among the sources; spec
section 4.3). -/
def inclusiveScanFrom (acc : Nat) : List Nat → List Nat
  | [] => []
  | x :: xs => (acc + x) :: inclusiveScanFrom (acc + x) xs

/-- Inclusive scan starting from zero. -/
def inclusiveScan (xs : List Nat) : List Nat := inclusiveScanFrom 0 xs

/-- Modelled from the spec: `brush_sort::radix_argsort` (crate not among
the sources; spec sections 4.2 and 4.5): stable sort of the first `n`
(key, payload) pairs on the low `bits` bits of the key, entries beyond
`n` left in place. -/
def radixArgsort (keys payload : List Nat) (n bits : Nat) :
    List Nat × List Nat :=
  let sorted := List.insertionSort
    (fun a b : Nat × Nat => a.1 % 2 ^ bits ≤ b.1 % 2 ^ bits)
    ((keys.zip payload).take n)
  (sorted.map Prod.fst ++ keys.drop n, sorted.map Prod.snd ++ payload.drop n)

/-- `BurnBack::int_gather` along dimension 0 (render.rs lines 171-175). -/
def int_gather (src idx : List Nat) : List Nat :=
  idx.map (fun i => src.getD i 0)

/-- Significant bits of a `u32`: `u32::BITS - leading_zeros` (render.rs
line 233). -/
def sigBits (x : Nat) : Nat := if x = 0 then 0 else Nat.log2 x + 1

/-- The auxiliary record returned by the renderer (render.rs lines
317-337), parametric in the tensor type so the same record shape serves
the inner backend and the autodiff backend. -/
structure RenderAuxP (T : Type) where
  num_visible : T
  num_intersects : T
  tile_bins : T
  cum_tiles_hit : T
  radii_compact : T
  conic_comps : T
  colors : T
  depths : T
  xys : T
  final_index : T
  depthsort_gid_from_isect : T
  compact_from_depthsort_gid : T
  global_from_compact_gid : T
deriving DecidableEq, Repr

/-- `RenderAux` on the inner (non-autodiff) backend. -/
abbrev RenderAux := RenderAuxP GTensor

/-- Successful result of `render_forward`: output image plus aux record. -/
structure FwdOut where
  out_img : GTensor
  aux : RenderAux
deriving DecidableEq, Repr

/-- Full outcome of a `render_forward` call: the host event trace
produced so far (also on panic) and the result or the panic. -/
structure FwdResult where
  trace : List Event
  result : PanicOr FwdOut
deriving DecidableEq, Repr

/-- The allocations render.rs lines 84-116 performs before the SH degree
is derived: projected-value buffers, the zeroed tile-hit counts and
visibility counter, the compaction permutation and `arranged_ids`. -/
def setupAllocs (num_points : Nat) : List Event :=
  [.alloc "xys" [num_points, 2],
   .alloc "depths" [num_points],
   .alloc "colors" [num_points, 4],
   .alloc "radii" [num_points],
   .alloc "conic_comps" [num_points, 4],
   .zeroAlloc "num_tiles_hit" [num_points],
   .zeroAlloc "num_visible" [1],
   .alloc "global_from_compact_gid" [num_points],
   .alloc "arranged_ids" [num_points]]

/-- The `ProjIn` record `render_forward` hands to `ProjectSplats`. -/
def projInOf (camera : Nat) (img_size : Nat × Nat) (sh_degree : Nat)
    (means log_scales quats sh_coeffs raw_opacities : GTensor) : ProjIn :=
  { camera := camera, img_size := img_size, sh_degree := sh_degree,
    means := means.data, log_scales := log_scales.data,
    quats := quats.data, sh_coeffs := sh_coeffs.data,
    raw_opacities := raw_opacities.data }

/-- The path of `render_forward` after the dimension check passed and
the SH degree was derived (render.rs lines 73-338). -/
def renderForwardOk (sem : KernelSem) (camera : Nat)
    (img_size : Nat × Nat)
    (means log_scales quats sh_coeffs raw_opacities : GTensor)
    (background : Nat × Nat × Nat) (raster_u32 : Bool)
    (sh_degree : Nat) : FwdResult :=
  let tile_bounds := (divCeil img_size.1 TILE_WIDTH, divCeil img_size.2 TILE_WIDTH)
  let num_points := means.shape.headD 0
  let po := sem.projectSplats
    (projInOf camera img_size sh_degree means log_scales quats sh_coeffs raw_opacities)
  let nv := po.num_visible
  let compact_from_depthsort_gid :=
    (radixArgsort po.depths po.arranged_ids nv 32).2
  let num_tiles_hit_ds := int_gather po.num_tiles_hit compact_from_depthsort_gid
  let cum_tiles_hit := inclusiveScan num_tiles_hit_ds
  let num_intersects_data := (cum_tiles_hit.drop (num_points - 1)).take 1
  let num_tiles := tile_bounds.1 * tile_bounds.2
  let max_intersects := min (num_points * num_tiles) (256 * 4 * 65535)
  let isect := sem.mapIntersect
    { tile_bounds := tile_bounds,
      compact_from_depthsort_gid := compact_from_depthsort_gid,
      xys := po.xys, conic_comps := po.conic_comps, colors := po.colors,
      radii := po.radii, cum_tiles_hit := cum_tiles_hit,
      num_visible := nv }
  let bits := sigBits num_tiles
  let num_isect_val := num_intersects_data.headD 0
  let sorted_isect := radixArgsort isect.1 isect.2 num_isect_val bits
  let tile_id_from_isect := sorted_isect.1
  let depthsort_gid_from_isect := sorted_isect.2
  let tile_bins_data := sem.tileBinEdges tile_id_from_isect num_isect_val
  let out_dim := if raster_u32 then 1 else 4
  let rast := sem.rasterize raster_u32
    { img_size := img_size, background := background,
      tile_bounds := tile_bounds,
      depthsort_gid_from_isect := depthsort_gid_from_isect,
      compact_from_depthsort_gid := compact_from_depthsort_gid,
      tile_bins := tile_bins_data, xys := po.xys,
      conic_comps := po.conic_comps, colors := po.colors }
  let final_index_data :=
    if raster_u32 then List.replicate (img_size.1 * img_size.2) 0 else rast.2
  { trace := setupAllocs num_points ++
      [.dispatch "ProjectSplats"
          ["means", "log_scales", "quats", "sh_coeffs", "raw_opacities"]
          ["arranged_ids", "global_from_compact_gid", "xys", "depths",
           "colors", "radii", "conic_comps", "num_tiles_hit", "num_visible"],
       .alloc "tile_id_from_isect" [max_intersects],
       .alloc "depthsort_gid_from_isect" [max_intersects],
       .dispatch "MapGaussiansToIntersect"
          ["compact_from_depthsort_gid", "xys", "conic_comps", "colors",
           "radii", "cum_tiles_hit", "num_visible"]
          ["tile_id_from_isect", "depthsort_gid_from_isect"],
       .zeroAlloc "tile_bins" [tile_bounds.2, tile_bounds.1, 2],
       .dispatch "GetTileBinEdges"
          ["tile_id_from_isect", "num_intersects"] ["tile_bins"],
       .alloc "out_img" [img_size.2, img_size.1, out_dim],
       .alloc "final_index" [img_size.1, img_size.2],
       .dispatch "Rasterize"
          ["depthsort_gid_from_isect", "compact_from_depthsort_gid",
           "tile_bins", "xys", "conic_comps", "colors"]
          (if raster_u32 then ["out_img"] else ["out_img", "final_index"])],
    result := .ok
      { out_img := ⟨[img_size.2, img_size.1, out_dim], rast.1⟩,
        aux :=
          { num_visible := ⟨[1], [nv]⟩,
            num_intersects := ⟨[1], num_intersects_data⟩,
            tile_bins := ⟨[tile_bounds.2, tile_bounds.1, 2], tile_bins_data⟩,
            cum_tiles_hit := ⟨[num_points], cum_tiles_hit⟩,
            radii_compact := ⟨[num_points], po.radii⟩,
            conic_comps := ⟨[num_points, 4], po.conic_comps⟩,
            colors := ⟨[num_points, 4], po.colors⟩,
            depths := ⟨[num_points], po.depths⟩,
            xys := ⟨[num_points, 2], po.xys⟩,
            final_index := ⟨[img_size.1, img_size.2], final_index_data⟩,
            depthsort_gid_from_isect :=
              ⟨[max_intersects], depthsort_gid_from_isect⟩,
            compact_from_depthsort_gid :=
              ⟨[num_points], compact_from_depthsort_gid⟩,
            global_from_compact_gid :=
              ⟨[num_points], po.global_from_compact_gid⟩ } } }

/-- render.rs lines 48-339, `render_forward`: dimension check, SH degree
derivation (either may panic), then projection, depth sort, tile-hit
scan, intersection emission, tile sort, bin edges and rasterization.
`_xy_dummy` is the second tensor argument, bound but never read. -/
def render_forward (sem : KernelSem) (camera : Nat) (img_size : Nat × Nat)
    (means _xy_dummy log_scales quats sh_coeffs raw_opacities : GTensor)
    (background : Nat × Nat × Nat) (raster_u32 : Bool) : FwdResult :=
  if dimCheckOk means log_scales quats sh_coeffs raw_opacities then
    match sh_degree_from_coeffs (sh_coeffs.shape.getD 1 0 / 3) with
    | .panicked msg =>
        { trace := setupAllocs (means.shape.headD 0), result := .panicked msg }
    | .ok sh_degree =>
        renderForwardOk sem camera img_size means log_scales quats sh_coeffs
          raw_opacities background raster_u32 sh_degree
  else
    { trace := [], result := .panicked "dimension check failed" }

/-- render.rs lines 369-382: the state checkpointed for the backward
pass. The four splat inputs are held as autodiff node ids; the camera,
background, SH degree, forward image and (inner-backend) aux record are
held by value. -/
structure GaussianBackwardState where
  cam : Nat
  background : Nat × Nat × Nat
  means : Nat
  log_scales : Nat
  quats : Nat
  raw_opac : Nat
  sh_degree : Nat
  out_img : GTensor
  aux : RenderAux
deriving DecidableEq, Repr

/-- The six per-primitive gradient buffers of the backward pass, held as
rows (2-D buffers) or scalars (`v_opac`). -/
structure GradBufs where
  v_means : List (List Nat)
  v_xys : List (List Nat)
  v_scales : List (List Nat)
  v_quats : List (List Nat)
  v_coeffs : List (List Nat)
  v_opac : List Nat
deriving DecidableEq, Repr

/-- One `ProjectBackwards` thread: the visible primitive at compact slot
`c` scatters its six gradient rows at row `global_from_compact_gid[c]`
of each output buffer. -/
def scatterOne (gfc : List Nat) (rows : Nat → GradRows) (bufs : GradBufs)
    (c : Nat) : GradBufs :=
  let g := gfc.getD c 0
  let r := rows c
  { v_means := bufs.v_means.set g r.r_means,
    v_xys := bufs.v_xys.set g r.r_xys,
    v_scales := bufs.v_scales.set g r.r_scales,
    v_quats := bufs.v_quats.set g r.r_quats,
    v_coeffs := bufs.v_coeffs.set g r.r_coeffs,
    v_opac := bufs.v_opac.set g r.r_opac }

/-- Modelled from the spec: the write pattern of the `ProjectBackwards`
shader (project_backwards.wgsl is not among the sources; spec section
4.9): dispatched over all primitives, guarded by
`compact_gid < num_visible`, each visible primitive scatters into the
zeroed per-primitive gradient buffers at
`global_from_compact_gid[compact_gid]`. -/
def projectBackwardsEffect (gfc : List Nat) (nv : Nat)
    (rows : Nat → GradRows) (bufs : GradBufs) : GradBufs :=
  (List.range nv).foldl (scatterOne gfc rows) bufs

/-- Outcome of `RenderBackwards::backward`: the host event trace, the
gradients registered per traced parent node (node id and tensor shape,
in registration order) and the final contents of the six per-primitive
gradient buffers. -/
structure BwdResult where
  trace : List Event
  registered : List (Nat × List Nat)
  bufs : GradBufs
deriving DecidableEq, Repr

/-- Registration of one gradient (render.rs lines 632-655): registered
only when the parent node is traced. -/
def registerFor (parent : Option Nat) (shape : List Nat) :
    List (Nat × List Nat) :=
  match parent with
  | some n => [(n, shape)]
  | none => []

/-- render.rs lines 482-657, `RenderBackwards::backward`: retrieve the
checkpointed inputs, allocate the per-intersection scatter buffers and
the zeroed `hit_ids` counter, dispatch `RasterizeBackwards`, allocate
the six zeroed per-primitive gradient buffers, dispatch
`ProjectBackwards`, then register the gradients of the traced parents in
the order means, xy_dummy, log_scales, quats, sh_coeffs, raw_opacities.
`ckpt` maps a checkpointed node id to its saved tensor
(`Checkpointer::retrieve_node_output`); `parents` are the six parent
nodes of `Ops`, in order, `none` for untraced ones. -/
def renderBackwards (sem : KernelSem) (state : GaussianBackwardState)
    (ckpt : Nat → GTensor) (v_output : GTensor)
    (parents : List (Option Nat)) : BwdResult :=
  let img_dims := state.out_img.shape
  let img_size := (img_dims.getD 1 0, img_dims.getD 0 0)
  let tile_bounds := (divCeil img_size.1 TILE_WIDTH, divCeil img_size.2 TILE_WIDTH)
  let means := ckpt state.means
  let quats := ckpt state.quats
  let log_scales := ckpt state.log_scales
  let raw_opac := ckpt state.raw_opac
  let num_points := means.shape.headD 0
  let max_intersects := state.aux.depthsort_gid_from_isect.shape.headD 0
  let rb := sem.rasterizeBwd
    { img_size := img_size, background := state.background,
      tile_bounds := tile_bounds,
      depthsort_gid_from_isect := state.aux.depthsort_gid_from_isect.data,
      compact_from_depthsort_gid := state.aux.compact_from_depthsort_gid.data,
      tile_bins := state.aux.tile_bins.data, xys := state.aux.xys.data,
      cum_tiles_hit := state.aux.cum_tiles_hit.data,
      conic_comps := state.aux.conic_comps.data,
      colors := state.aux.colors.data,
      final_index := state.aux.final_index.data,
      out_img := state.out_img.data, v_output := v_output.data }
  let n_coeffs := num_sh_coeffs state.sh_degree * 3
  let bufs0 : GradBufs :=
    { v_means := List.replicate num_points (List.replicate 3 0),
      v_xys := List.replicate num_points (List.replicate 2 0),
      v_scales := List.replicate num_points (List.replicate 3 0),
      v_quats := List.replicate num_points (List.replicate 4 0),
      v_coeffs := List.replicate num_points (List.replicate n_coeffs 0),
      v_opac := List.replicate num_points 0 }
  let pbIn : ProjBwdIn :=
    { camera := state.cam, img_size := img_size,
      sh_degree := state.sh_degree, means := means.data,
      log_scales := log_scales.data, quats := quats.data,
      raw_opac := raw_opac.data,
      conic_comps := state.aux.conic_comps.data,
      cum_tiles_hit := state.aux.cum_tiles_hit.data,
      v_xy_scatter := rb.v_xy_scatter,
      v_conic_scatter := rb.v_conic_scatter,
      v_colors_scatter := rb.v_colors_scatter,
      num_visible := state.aux.num_visible.data.headD 0,
      global_from_compact_gid := state.aux.global_from_compact_gid.data,
      compact_from_depthsort_gid := state.aux.compact_from_depthsort_gid.data }
  let bufs := projectBackwardsEffect state.aux.global_from_compact_gid.data
    (state.aux.num_visible.data.headD 0) (sem.projectBwdRows pbIn) bufs0
  { trace :=
      [.alloc "v_xy_scatter" [max_intersects, 2],
       .alloc "v_conic_scatter" [max_intersects, 4],
       .alloc "v_colors_scatter" [max_intersects, 4],
       .zeroAlloc "hit_ids" [num_points],
       .dispatch "RasterizeBackwards"
          ["depthsort_gid_from_isect", "compact_from_depthsort_gid",
           "tile_bins", "xys", "cum_tiles_hit", "conic_comps", "colors",
           "final_index", "out_img", "v_output"]
          ["v_xy_scatter", "v_conic_scatter", "v_colors_scatter", "hit_ids"],
       .zeroAlloc "v_means" [num_points, 3],
       .zeroAlloc "v_scales" [num_points, 3],
       .zeroAlloc "v_quats" [num_points, 4],
       .zeroAlloc "v_coeffs" [num_points, n_coeffs],
       .zeroAlloc "v_opac" [num_points],
       .zeroAlloc "v_xys" [num_points, 2],
       .dispatch "ProjectBackwards"
          ["means", "log_scales", "quats", "raw_opac", "conic_comps",
           "cum_tiles_hit", "v_xy_scatter", "v_conic_scatter",
           "v_colors_scatter", "num_visible", "global_from_compact_gid",
           "compact_from_depthsort_gid"]
          ["v_means", "v_xys", "v_scales", "v_quats", "v_coeffs", "v_opac"]],
    registered :=
      registerFor (parents.getD 0 none) [num_points, 3] ++
      registerFor (parents.getD 1 none) [num_points, 2] ++
      registerFor (parents.getD 2 none) [num_points, 3] ++
      registerFor (parents.getD 3 none) [num_points, 4] ++
      registerFor (parents.getD 4 none) [num_points, n_coeffs] ++
      registerFor (parents.getD 5 none) [num_points],
    bufs := bufs }

/-- A tensor on the autodiff backend: the inner (non-autodiff) tensor,
its graph node id, and whether gradients are traced for it. -/
structure ADTensor where
  inner : GTensor
  node : Nat
  tracked : Bool
deriving DecidableEq, Repr

/-- `Tensor::from_inner`: lift an inner-backend tensor to the autodiff
backend as an untraced constant. -/
def fromInner (t : GTensor) : ADTensor :=
  { inner := t, node := 0, tracked := false }

/-- Result of `render_gaussians` on the autodiff backend: the output
image, the lifted aux record, the six parent nodes the backward operator
was prepared over (in order), the saved backward state when the op is
tracked, the node ids checkpointed for backward (in order), and the
forward trace. -/
structure ADRenderResult where
  out_img : ADTensor
  aux : RenderAuxP ADTensor
  parents : List Nat
  state : Option GaussianBackwardState
  checkpointed : List Nat
  fwdTrace : List Event
deriving DecidableEq, Repr

/-- render.rs lines 387-480, `render_gaussians` on `Autodiff<BurnBack>`:
prepare the backward op over the six inputs, derive the SH degree
(may panic), run the inner forward pass (may panic), lift the aux record
with `Tensor::from_inner`, and either save the backward state
(checkpointing means, log_scales, quats, raw_opacity) when some parent
is tracked, or finish stateless when none is. -/
def adRenderGaussians (sem : KernelSem) (camera : Nat)
    (img_size : Nat × Nat)
    (means xy_dummy log_scales quats sh_coeffs raw_opacity : ADTensor)
    (background : Nat × Nat × Nat) (render_u32_buffer : Bool) :
    PanicOr ADRenderResult :=
  let parents := [means.node, xy_dummy.node, log_scales.node, quats.node,
    sh_coeffs.node, raw_opacity.node]
  let tracked := means.tracked || xy_dummy.tracked || log_scales.tracked ||
    quats.tracked || sh_coeffs.tracked || raw_opacity.tracked
  match sh_degree_from_coeffs (sh_coeffs.inner.shape.getD 1 0 / 3) with
  | .panicked msg => .panicked msg
  | .ok sh_degree =>
    let fwd := render_forward sem camera img_size means.inner xy_dummy.inner
      log_scales.inner quats.inner sh_coeffs.inner raw_opacity.inner
      background render_u32_buffer
    match fwd.result with
    | .panicked msg => .panicked msg
    | .ok fo =>
      let wrap_aux : RenderAuxP ADTensor :=
        { num_visible := fromInner fo.aux.num_visible,
          num_intersects := fromInner fo.aux.num_intersects,
          tile_bins := fromInner fo.aux.tile_bins,
          radii_compact := fromInner fo.aux.radii_compact,
          depthsort_gid_from_isect := fromInner fo.aux.depthsort_gid_from_isect,
          compact_from_depthsort_gid := fromInner fo.aux.compact_from_depthsort_gid,
          depths := fromInner fo.aux.depths,
          xys := fromInner fo.aux.xys,
          cum_tiles_hit := fromInner fo.aux.cum_tiles_hit,
          conic_comps := fromInner fo.aux.conic_comps,
          colors := fromInner fo.aux.colors,
          final_index := fromInner fo.aux.final_index,
          global_from_compact_gid := fromInner fo.aux.global_from_compact_gid }
      if tracked then
        let st : GaussianBackwardState :=
          { means := means.node, log_scales := log_scales.node,
            quats := quats.node, raw_opac := raw_opacity.node,
            cam := camera, background := background,
            sh_degree := sh_degree, aux := fo.aux, out_img := fo.out_img }
        .ok { out_img := { inner := fo.out_img, node := 0, tracked := true },
              aux := wrap_aux, parents := parents, state := some st,
              checkpointed := [means.node, log_scales.node, quats.node,
                raw_opacity.node],
              fwdTrace := fwd.trace }
      else
        .ok { out_img := { inner := fo.out_img, node := 0, tracked := false },
              aux := wrap_aux, parents := parents, state := none,
              checkpointed := [], fwdTrace := fwd.trace }

/-- Modelled from the spec (sections 4.1 and 4.3): what the
`ProjectSplats` kernel guarantees about its outputs — `arranged_ids` is
filled with the identity, `depths` and `num_tiles_hit` have one entry
per primitive, at most all primitives are counted visible, and
`num_tiles_hit` stays zero (its `int_zeros` fill) beyond the
`num_visible` compacted slots. -/
def ProjConform (N : Nat) (po : ProjOut) : Prop :=
  po.arranged_ids = List.range N ∧
  po.depths.length = N ∧
  po.num_tiles_hit.length = N ∧
  po.num_visible ≤ N ∧
  ∀ x ∈ po.num_tiles_hit.drop po.num_visible, x = 0

instance (N : Nat) (po : ProjOut) : Decidable (ProjConform N po) := by
  unfold ProjConform; infer_instance

/-- The seven backward buffers claim C2 speaks about. -/
def gradBufNames : List String :=
  ["v_means", "v_scales", "v_quats", "v_coeffs", "v_opac", "v_xys", "hit_ids"]

/-- The two backward kernels. -/
def bwdKernelNames : List String := ["RasterizeBackwards", "ProjectBackwards"]

/-- Scan of a trace: `false` once a zero-fill of one of the backward
gradient buffers appears after a backward-kernel dispatch has been
issued (`seen` carries whether one was). -/
def zeroInitPrecedesBwd : Bool → List Event → Bool
  | _, [] => true
  | seen, e :: es =>
    match e with
    | .dispatch k _ _ => zeroInitPrecedesBwd (seen || bwdKernelNames.contains k) es
    | .zeroAlloc nm _ =>
        if seen && gradBufNames.contains nm then false
        else zeroInitPrecedesBwd seen es
    | _ => zeroInitPrecedesBwd seen es

/-- The ordering part of claim C2 on a backward trace: every
zero-initialization of the six per-primitive gradient buffers and of
`hit_ids` precedes every backward-kernel dispatch. -/
def zeroInitPrecedesBwdDispatch (tr : List Event) : Bool :=
  zeroInitPrecedesBwd false tr

/-- Claim C2 read on a backward trace: each of the seven buffers is
zero-initialized, and all those zero-initializations precede the
backward-kernel dispatches. -/
def claimC2Holds (tr : List Event) : Bool :=
  gradBufNames.all (fun nm => tr.any (fun e =>
    match e with
    | .zeroAlloc nm2 _ => nm2 == nm
    | _ => false)) &&
  zeroInitPrecedesBwdDispatch tr

/-- A concrete kernel semantics used to instantiate theorems: every
primitive is visible, covers one tile, and gradient rows are ones. -/
def trivialSem : KernelSem :=
  { projectSplats := fun pin =>
      let n := pin.means.length / 3
      { arranged_ids := List.range n,
        global_from_compact_gid := List.range n,
        xys := List.replicate (2 * n) 0,
        depths := List.replicate n 1,
        colors := List.replicate (4 * n) 0,
        radii := List.replicate n 0,
        conic_comps := List.replicate (4 * n) 0,
        num_tiles_hit := List.replicate n 1,
        num_visible := n },
    mapIntersect := fun _ => ([], []),
    tileBinEdges := fun _ _ => [],
    rasterize := fun _ _ => ([], []),
    rasterizeBwd := fun _ => ⟨[], [], [], []⟩,
    projectBwdRows := fun _ _ =>
      { r_means := [1, 1, 1], r_xys := [1, 1], r_scales := [1, 1, 1],
        r_quats := [1, 1, 1, 1], r_coeffs := [1, 1, 1], r_opac := 1 } }

/-- A one-primitive input set with valid dimensions (degree-0 SH). -/
def sampleMeans : GTensor := ⟨[1, 3], [0, 0, 0]⟩

def sampleScales : GTensor := ⟨[1, 3], [0, 0, 0]⟩

def sampleQuats : GTensor := ⟨[1, 4], [0, 0, 0, 1]⟩

def sampleCoeffs : GTensor := ⟨[1, 3], [2, 2, 2]⟩

def sampleOpac : GTensor := ⟨[1], [0]⟩

def sampleXyA : GTensor := ⟨[1, 2], [0, 0]⟩

def sampleXyB : GTensor := ⟨[1, 2], [5, 7]⟩

/-- A concrete aux record for one visible primitive. -/
def exampleAux : RenderAux :=
  { num_visible := ⟨[1], [1]⟩,
    num_intersects := ⟨[1], [1]⟩,
    tile_bins := ⟨[1, 1, 2], [0, 1]⟩,
    cum_tiles_hit := ⟨[1], [1]⟩,
    radii_compact := ⟨[1], [1]⟩,
    conic_comps := ⟨[1, 4], [0, 0, 0, 0]⟩,
    colors := ⟨[1, 4], [0, 0, 0, 0]⟩,
    depths := ⟨[1], [1]⟩,
    xys := ⟨[1, 2], [0, 0]⟩,
    final_index := ⟨[8, 8], []⟩,
    depthsort_gid_from_isect := ⟨[4], [0, 0, 0, 0]⟩,
    compact_from_depthsort_gid := ⟨[1], [0]⟩,
    global_from_compact_gid := ⟨[1], [0]⟩ }

/-- A concrete backward state for the one-primitive scene. -/
def exampleState : GaussianBackwardState :=
  { cam := 0, background := (0, 0, 0), means := 10, log_scales := 11,
    quats := 12, raw_opac := 13, sh_degree := 0,
    out_img := ⟨[8, 8, 4], []⟩, aux := exampleAux }

/-- A concrete checkpointer returning the one-primitive tensors. -/
def exampleCkpt : Nat → GTensor := fun _ => ⟨[1, 3], [0, 0, 0]⟩

/-- The trace of a concrete backward pass. -/
def exampleBwdTrace : List Event :=
  (renderBackwards trivialSem exampleState exampleCkpt ⟨[8, 8, 4], []⟩
    [some 1, some 2, some 3, some 4, some 5, some 6]).trace

/-- Lift a tensor to the autodiff backend as a traced input. -/
def adT (t : GTensor) (n : Nat) : ADTensor := ⟨t, n, true⟩

/-- A placeholder forward output used when projecting a panicked result. -/
def panicFo : FwdOut :=
  { out_img := ⟨[], []⟩,
    aux :=
      { num_visible := ⟨[], []⟩, num_intersects := ⟨[], []⟩,
        tile_bins := ⟨[], []⟩, cum_tiles_hit := ⟨[], []⟩,
        radii_compact := ⟨[], []⟩, conic_comps := ⟨[], []⟩,
        colors := ⟨[], []⟩, depths := ⟨[], []⟩, xys := ⟨[], []⟩,
        final_index := ⟨[], []⟩, depthsort_gid_from_isect := ⟨[], []⟩,
        compact_from_depthsort_gid := ⟨[], []⟩,
        global_from_compact_gid := ⟨[], []⟩ } }

/-- Extract the forward output of a successful render. -/
def resultFo (r : FwdResult) : FwdOut :=
  match r.result with
  | .ok fo => fo
  | .panicked _ => panicFo

/-- A concrete successful forward render of the one-primitive scene. -/
def sampleFwd : FwdResult :=
  render_forward trivialSem 0 (8, 8) sampleMeans sampleXyA sampleScales
    sampleQuats sampleCoeffs sampleOpac (0, 0, 0) false

/-- A backward state for a two-primitive scene in which only the first
primitive is visible (`num_visible = 1`). -/
def example2State : GaussianBackwardState :=
  { cam := 0, background := (0, 0, 0), means := 10, log_scales := 11,
    quats := 12, raw_opac := 13, sh_degree := 0,
    out_img := ⟨[8, 8, 4], []⟩,
    aux :=
      { num_visible := ⟨[1], [1]⟩,
        num_intersects := ⟨[1], [1]⟩,
        tile_bins := ⟨[1, 1, 2], [0, 1]⟩,
        cum_tiles_hit := ⟨[2], [1, 1]⟩,
        radii_compact := ⟨[2], [1, 0]⟩,
        conic_comps := ⟨[2, 4], List.replicate 8 0⟩,
        colors := ⟨[2, 4], List.replicate 8 0⟩,
        depths := ⟨[2], [1, 0]⟩,
        xys := ⟨[2, 2], [0, 0, 0, 0]⟩,
        final_index := ⟨[8, 8], []⟩,
        depthsort_gid_from_isect := ⟨[4], [0, 0, 0, 0]⟩,
        compact_from_depthsort_gid := ⟨[2], [0, 1]⟩,
        global_from_compact_gid := ⟨[2], [0, 1]⟩ } }

/-- A checkpointer for the two-primitive scene. -/
def example2Ckpt : Nat → GTensor := fun _ => ⟨[2, 3], [0, 0, 0, 0, 0, 0]⟩

/-- A placeholder autodiff render result used when projecting a panicked
result. -/
def panicADR : ADRenderResult :=
  { out_img := fromInner ⟨[], []⟩,
    aux :=
      { num_visible := fromInner ⟨[], []⟩,
        num_intersects := fromInner ⟨[], []⟩,
        tile_bins := fromInner ⟨[], []⟩,
        cum_tiles_hit := fromInner ⟨[], []⟩,
        radii_compact := fromInner ⟨[], []⟩,
        conic_comps := fromInner ⟨[], []⟩,
        colors := fromInner ⟨[], []⟩,
        depths := fromInner ⟨[], []⟩,
        xys := fromInner ⟨[], []⟩,
        final_index := fromInner ⟨[], []⟩,
        depthsort_gid_from_isect := fromInner ⟨[], []⟩,
        compact_from_depthsort_gid := fromInner ⟨[], []⟩,
        global_from_compact_gid := fromInner ⟨[], []⟩ },
    parents := [], state := none, checkpointed := [], fwdTrace := [] }

/-- The concrete autodiff render of the one-primitive scene with all six
inputs traced under distinct node ids 1, 2, 3, 4, 5, 6. -/
def resultADR : ADRenderResult :=
  match adRenderGaussians trivialSem 0 (8, 8) (adT sampleMeans 1)
    (adT sampleXyA 2) (adT sampleScales 3) (adT sampleQuats 4)
    (adT sampleCoeffs 5) (adT sampleOpac 6) (0, 0, 0) false with
  | .ok r => r
  | .panicked _ => panicADR

/-- The backward state saved by that tracked render. -/
def resultADRState : GaussianBackwardState :=
  match resultADR.state with
  | some st => st
  | none => exampleState

theorem getD_set_ne {l : List Nat} {i j : Nat} (a : Nat) (h : i ≠ j) :
    (l.set i a).getD j 0 = l.getD j 0 := by
  simp [List.getD_eq_getElem?_getD, List.getElem?_set_ne h]

theorem getD_set_ne' {α : Type} {l : List α} {i j : Nat} (a : α) (d : α)
    (h : i ≠ j) : (l.set i a).getD j d = l.getD j d := by
  simp [List.getD_eq_getElem?_getD, List.getElem?_set_ne h]

theorem length_inclusiveScanFrom (a : Nat) (xs : List Nat) :
    (inclusiveScanFrom a xs).length = xs.length := by
  induction xs generalizing a with
  | nil => rfl
  | cons x t ih => simp [inclusiveScanFrom, ih]

theorem inclusiveScanFrom_last (a : Nat) (xs : List Nat) (h : xs ≠ []) :
    (inclusiveScanFrom a xs).getD (xs.length - 1) 0 = a + xs.sum := by
  induction xs generalizing a with
  | nil => exact absurd rfl h
  | cons x t ih =>
    cases t with
    | nil => simp [inclusiveScanFrom]
    | cons y u =>
      have := ih (a + x) (by simp)
      simpa [inclusiveScanFrom, Nat.add_assoc] using this

theorem inclusiveScan_last (xs : List Nat) (h : xs ≠ []) :
    (inclusiveScan xs).getD (xs.length - 1) 0 = xs.sum := by
  simpa using inclusiveScanFrom_last 0 xs h

theorem map_getD_range (l : List Nat) :
    (List.range l.length).map (fun i => l.getD i 0) = l := by
  apply List.ext_getElem
  · simp
  · intro i h1 h2
    simp [List.getD_eq_getElem?_getD, List.getElem?_eq_getElem h2]

/-- The payload output of the modelled radix argsort is a permutation of
the payload input when the keys and the payload have equal length. -/
theorem radixArgsort_snd_perm (keys payload : List Nat) (n bits : Nat)
    (h : keys.length = payload.length) :
    List.Perm (radixArgsort keys payload n bits).2 payload := by
  unfold radixArgsort
  have hperm : List.Perm
      (List.insertionSort
        (fun a b : Nat × Nat => a.1 % 2 ^ bits ≤ b.1 % 2 ^ bits)
        ((keys.zip payload).take n))
      ((keys.zip payload).take n) := List.perm_insertionSort _ _
  have hmap := hperm.map Prod.snd
  have hsnd : ((keys.zip payload).take n).map Prod.snd = payload.take n := by
    rw [List.map_take, List.map_snd_zip keys payload (le_of_eq h.symm)]
  rw [hsnd] at hmap
  calc List.Perm _ (payload.take n ++ payload.drop n) :=
        hmap.append_right (payload.drop n)
    _ = payload := by rw [List.take_append_drop]

theorem gather_sum_of_perm (src idx : List Nat)
    (h : List.Perm idx (List.range src.length)) :
    (int_gather src idx).sum = src.sum := by
  unfold int_gather
  rw [(h.map (fun i => src.getD i 0)).sum_eq, map_getD_range]

theorem sum_take_of_drop_zero (l : List Nat) (n : Nat)
    (h : ∀ x ∈ l.drop n, x = 0) : l.sum = (l.take n).sum := by
  conv_lhs => rw [← List.take_append_drop n l]
  rw [List.sum_append, List.sum_eq_zero h, Nat.add_zero]

/-- C9: for every degree d in 0..4, `num_sh_coeffs d = (d+1)^2` and
`sh_degree_from_coeffs (num_sh_coeffs d) = d`, i.e.
`sh_degree_from_coeffs` is a left inverse of `num_sh_coeffs` on degrees
0..4, and `num_sh_coeffs` maps 0..4 exactly onto 1, 4, 9, 16, 25. -/
theorem sh_degree_coeffs_left_inverse :
    (∀ d : Nat, d ≤ 4 →
      num_sh_coeffs d = (d + 1) ^ 2 ∧
      sh_degree_from_coeffs (num_sh_coeffs d) = .ok d) ∧
    List.map num_sh_coeffs [0, 1, 2, 3, 4] = [1, 4, 9, 16, 25] := by
  constructor
  · intro d hd
    interval_cases d <;> exact ⟨rfl, by decide⟩
  · decide

/-- Witness for C9 at degree 3. -/
theorem sh_degree_coeffs_left_inverse_witness :
    num_sh_coeffs 3 = (3 + 1) ^ 2 ∧
    sh_degree_from_coeffs (num_sh_coeffs 3) = .ok 3 :=
  sh_degree_coeffs_left_inverse.1 3 (by decide)

/-- C8: the forward render never reads `xy_dummy`: two calls to
`render_forward` that differ only in the `xy_dummy` tensor (same shape)
return identical results — the same trace, output image and every
tensor of the `RenderAux` record. -/
theorem render_forward_ignores_xy_dummy (sem : KernelSem) (camera : Nat)
    (img_size : Nat × Nat)
    (means xy1 xy2 log_scales quats sh_coeffs raw_opacities : GTensor)
    (background : Nat × Nat × Nat) (raster_u32 : Bool)
    (hshape : xy1.shape = xy2.shape) :
    render_forward sem camera img_size means xy1 log_scales quats
      sh_coeffs raw_opacities background raster_u32 =
    render_forward sem camera img_size means xy2 log_scales quats
      sh_coeffs raw_opacities background raster_u32 := rfl

/-- Witness for C8 at a concrete one-primitive scene with two different
`xy_dummy` payloads of equal shape. -/
theorem render_forward_ignores_xy_dummy_witness :
    sampleXyA.shape = sampleXyB.shape ∧
    render_forward trivialSem 0 (8, 8) sampleMeans sampleXyA sampleScales
      sampleQuats sampleCoeffs sampleOpac (0, 0, 0) false =
    render_forward trivialSem 0 (8, 8) sampleMeans sampleXyB sampleScales
      sampleQuats sampleCoeffs sampleOpac (0, 0, 0) false :=
  ⟨rfl, render_forward_ignores_xy_dummy trivialSem 0 (8, 8) sampleMeans
    sampleXyA sampleXyB sampleScales sampleQuats sampleCoeffs sampleOpac
    (0, 0, 0) false rfl⟩

theorem sh_degree_from_coeffs_panics {k : Nat}
    (h : k ∉ ([1, 4, 9, 16, 25] : List Nat)) :
    ∃ m, sh_degree_from_coeffs k = .panicked m := by
  simp only [List.mem_cons, List.not_mem_nil, or_false, not_or] at h
  obtain ⟨h1, h4, h9, h16, h25⟩ := h
  exact ⟨"Invalid nr. of sh bases",
    by simp [sh_degree_from_coeffs, h1, h4, h9, h16, h25]⟩

theorem dimCheckOk_facts
    {means log_scales quats sh_coeffs raw_opacities : GTensor}
    (h : dimCheckOk means log_scales quats sh_coeffs raw_opacities = true) :
    means.shape.getD 1 0 = 3 ∧ log_scales.shape.getD 1 0 = 3 ∧
    quats.shape.getD 1 0 = 4 ∧
    log_scales.shape.headD 0 = means.shape.headD 0 ∧
    quats.shape.headD 0 = means.shape.headD 0 ∧
    sh_coeffs.shape.headD 0 = means.shape.headD 0 ∧
    raw_opacities.shape.headD 0 = means.shape.headD 0 := by
  simp only [dimCheckOk, Bool.and_eq_true, beq_iff_eq] at h
  tauto

/-- C1: if the per-channel SH coefficient count is not one of
1, 4, 9, 16, 25, or the five parameter tensors disagree on the row count
N, or means/log_scales/quats have column counts other than 3/3/4, the
render entry point panics and its trace contains no kernel dispatch. -/
theorem render_forward_invalid_input_panics_before_dispatch
    (sem : KernelSem) (camera : Nat) (img_size : Nat × Nat)
    (means xy_dummy log_scales quats sh_coeffs raw_opacities : GTensor)
    (background : Nat × Nat × Nat) (raster_u32 : Bool)
    (hbad : sh_coeffs.shape.getD 1 0 / 3 ∉ ([1, 4, 9, 16, 25] : List Nat) ∨
      ¬ (log_scales.shape.headD 0 = means.shape.headD 0 ∧
         quats.shape.headD 0 = means.shape.headD 0 ∧
         sh_coeffs.shape.headD 0 = means.shape.headD 0 ∧
         raw_opacities.shape.headD 0 = means.shape.headD 0) ∨
      means.shape.getD 1 0 ≠ 3 ∨ log_scales.shape.getD 1 0 ≠ 3 ∨
      quats.shape.getD 1 0 ≠ 4) :
    (∃ msg, (render_forward sem camera img_size means xy_dummy log_scales
        quats sh_coeffs raw_opacities background raster_u32).result =
        .panicked msg) ∧
    ∀ k r w, Event.dispatch k r w ∉ (render_forward sem camera img_size
        means xy_dummy log_scales quats sh_coeffs raw_opacities background
        raster_u32).trace := by
  by_cases hd : dimCheckOk means log_scales quats sh_coeffs raw_opacities = true
  · obtain ⟨hm, hl, hq, hln, hqn, hsn, hrn⟩ := dimCheckOk_facts hd
    have hsh : sh_coeffs.shape.getD 1 0 / 3 ∉ ([1, 4, 9, 16, 25] : List Nat) := by
      rcases hbad with h | h | h | h | h
      · exact h
      · exact absurd ⟨hln, hqn, hsn, hrn⟩ h
      · exact absurd hm h
      · exact absurd hl h
      · exact absurd hq h
    obtain ⟨m, hm2⟩ := sh_degree_from_coeffs_panics hsh
    refine ⟨⟨m, ?_⟩, ?_⟩
    · simp only [render_forward, hd, hm2, if_true]
    · intro k r w
      simp only [render_forward, hd, hm2, if_true]
      simp [setupAllocs]
  · refine ⟨⟨"dimension check failed", ?_⟩, ?_⟩
    · simp only [render_forward, hd, Bool.false_eq_true, if_false]
    · intro k r w
      simp only [render_forward, hd, Bool.false_eq_true, if_false]
      simp

/-- Witness for C1: a scene whose sh_coeffs tensor has 6 columns
(6 / 3 = 2 coefficients per channel, invalid). -/
theorem render_forward_invalid_input_panics_before_dispatch_witness :
    ((6 : Nat) / 3 ∉ ([1, 4, 9, 16, 25] : List Nat) ∨
      ¬ ((1 : Nat) = 1 ∧ (1 : Nat) = 1 ∧ (1 : Nat) = 1 ∧ (1 : Nat) = 1) ∨
      (3 : Nat) ≠ 3 ∨ (3 : Nat) ≠ 3 ∨ (4 : Nat) ≠ 4) ∧
    ((∃ msg, (render_forward trivialSem 0 (8, 8) sampleMeans sampleXyA
        sampleScales sampleQuats ⟨[1, 6], [0, 0, 0, 0, 0, 0]⟩ sampleOpac
        (0, 0, 0) false).result = .panicked msg) ∧
      ∀ k r w, Event.dispatch k r w ∉ (render_forward trivialSem 0 (8, 8)
        sampleMeans sampleXyA sampleScales sampleQuats
        ⟨[1, 6], [0, 0, 0, 0, 0, 0]⟩ sampleOpac (0, 0, 0) false).trace) :=
  ⟨by decide,
   render_forward_invalid_input_panics_before_dispatch trivialSem 0 (8, 8)
     sampleMeans sampleXyA sampleScales sampleQuats
     ⟨[1, 6], [0, 0, 0, 0, 0, 0]⟩ sampleOpac (0, 0, 0) false
     (by decide)⟩

theorem render_forward_eq_ok (sem : KernelSem) (camera : Nat)
    (img_size : Nat × Nat)
    (means xy_dummy log_scales quats sh_coeffs raw_opacities : GTensor)
    (background : Nat × Nat × Nat) (raster_u32 : Bool) (d : Nat)
    (hd : dimCheckOk means log_scales quats sh_coeffs raw_opacities = true)
    (hs : sh_degree_from_coeffs (sh_coeffs.shape.getD 1 0 / 3) = .ok d) :
    render_forward sem camera img_size means xy_dummy log_scales quats
      sh_coeffs raw_opacities background raster_u32 =
    renderForwardOk sem camera img_size means log_scales quats sh_coeffs
      raw_opacities background raster_u32 d := by
  simp only [render_forward, hd, hs, if_true]

/-- C5: when `render_u32_buffer` is true the output image has shape
(H, W, 1) and `final_index` is not bound as a rasterizer output; when it
is false the image has shape (H, W, 4) and `final_index` is bound. -/
theorem rasterize_output_mode (sem : KernelSem) (camera : Nat)
    (img_size : Nat × Nat)
    (means xy_dummy log_scales quats sh_coeffs raw_opacities : GTensor)
    (background : Nat × Nat × Nat) (raster_u32 : Bool) (d : Nat)
    (hd : dimCheckOk means log_scales quats sh_coeffs raw_opacities = true)
    (hs : sh_degree_from_coeffs (sh_coeffs.shape.getD 1 0 / 3) = .ok d) :
    ∃ fo, (render_forward sem camera img_size means xy_dummy log_scales
        quats sh_coeffs raw_opacities background raster_u32).result =
        .ok fo ∧
      fo.out_img.shape =
        [img_size.2, img_size.1, if raster_u32 then 1 else 4] ∧
      (∃ r, Event.dispatch "Rasterize" r
        (if raster_u32 then ["out_img"] else ["out_img", "final_index"]) ∈
        (render_forward sem camera img_size means xy_dummy log_scales quats
          sh_coeffs raw_opacities background raster_u32).trace) ∧
      ∀ r w, Event.dispatch "Rasterize" r w ∈ (render_forward sem camera
          img_size means xy_dummy log_scales quats sh_coeffs raw_opacities
          background raster_u32).trace →
        w = (if raster_u32 then ["out_img"] else ["out_img", "final_index"]) := by
  rw [render_forward_eq_ok sem camera img_size means xy_dummy log_scales
    quats sh_coeffs raw_opacities background raster_u32 d hd hs]
  refine ⟨_, rfl, rfl, ?_, ?_⟩
  · exact ⟨["depthsort_gid_from_isect", "compact_from_depthsort_gid",
      "tile_bins", "xys", "conic_comps", "colors"],
      by simp [renderForwardOk, setupAllocs]⟩
  · intro r w hmem
    simp [renderForwardOk, setupAllocs] at hmem
    exact hmem.2

/-- Witness for C5 at a concrete scene in both output modes. -/
theorem rasterize_output_mode_witness :
    dimCheckOk sampleMeans sampleScales sampleQuats sampleCoeffs
      sampleOpac = true ∧
    sh_degree_from_coeffs (sampleCoeffs.shape.getD 1 0 / 3) = .ok 0 ∧
    (∃ fo, (render_forward trivialSem 0 (8, 8) sampleMeans sampleXyA
        sampleScales sampleQuats sampleCoeffs sampleOpac (0, 0, 0)
        true).result = .ok fo ∧
      fo.out_img.shape = [8, 8, if true then 1 else 4] ∧
      (∃ r, Event.dispatch "Rasterize" r
        (if true then ["out_img"] else ["out_img", "final_index"]) ∈
        (render_forward trivialSem 0 (8, 8) sampleMeans sampleXyA
          sampleScales sampleQuats sampleCoeffs sampleOpac (0, 0, 0)
          true).trace) ∧
      ∀ r w, Event.dispatch "Rasterize" r w ∈ (render_forward trivialSem 0
          (8, 8) sampleMeans sampleXyA sampleScales sampleQuats
          sampleCoeffs sampleOpac (0, 0, 0) true).trace →
        w = (if true then ["out_img"] else ["out_img", "final_index"])) :=
  ⟨by decide, by decide,
   rasterize_output_mode trivialSem 0 (8, 8) sampleMeans sampleXyA
     sampleScales sampleQuats sampleCoeffs sampleOpac (0, 0, 0) true 0
     (by decide) (by decide)⟩

/-- C6: the intersection buffers `tile_id_from_isect` and
`depthsort_gid_from_isect` are each allocated with exactly
min(N * tiles, 256 * 4 * 65535) entries, where
tiles = ceil(W / TILE_WIDTH) * ceil(H / TILE_WIDTH). -/
theorem isect_buffers_allocation (sem : KernelSem) (camera : Nat)
    (img_size : Nat × Nat)
    (means xy_dummy log_scales quats sh_coeffs raw_opacities : GTensor)
    (background : Nat × Nat × Nat) (raster_u32 : Bool) (d : Nat)
    (hd : dimCheckOk means log_scales quats sh_coeffs raw_opacities = true)
    (hs : sh_degree_from_coeffs (sh_coeffs.shape.getD 1 0 / 3) = .ok d) :
    Event.alloc "tile_id_from_isect"
      [min (means.shape.headD 0 *
        (divCeil img_size.1 TILE_WIDTH * divCeil img_size.2 TILE_WIDTH))
        (256 * 4 * 65535)] ∈
      (render_forward sem camera img_size means xy_dummy log_scales quats
        sh_coeffs raw_opacities background raster_u32).trace ∧
    Event.alloc "depthsort_gid_from_isect"
      [min (means.shape.headD 0 *
        (divCeil img_size.1 TILE_WIDTH * divCeil img_size.2 TILE_WIDTH))
        (256 * 4 * 65535)] ∈
      (render_forward sem camera img_size means xy_dummy log_scales quats
        sh_coeffs raw_opacities background raster_u32).trace ∧
    (∀ s, Event.alloc "tile_id_from_isect" s ∈ (render_forward sem camera
        img_size means xy_dummy log_scales quats sh_coeffs raw_opacities
        background raster_u32).trace →
      s = [min (means.shape.headD 0 *
        (divCeil img_size.1 TILE_WIDTH * divCeil img_size.2 TILE_WIDTH))
        (256 * 4 * 65535)]) ∧
    (∀ s, Event.alloc "depthsort_gid_from_isect" s ∈ (render_forward sem
        camera img_size means xy_dummy log_scales quats sh_coeffs
        raw_opacities background raster_u32).trace →
      s = [min (means.shape.headD 0 *
        (divCeil img_size.1 TILE_WIDTH * divCeil img_size.2 TILE_WIDTH))
        (256 * 4 * 65535)]) := by
  rw [render_forward_eq_ok sem camera img_size means xy_dummy log_scales
    quats sh_coeffs raw_opacities background raster_u32 d hd hs]
  refine ⟨by simp [renderForwardOk, setupAllocs],
    by simp [renderForwardOk, setupAllocs], ?_, ?_⟩ <;>
  · intro s hmem
    simp [renderForwardOk, setupAllocs] at hmem
    simpa using hmem

/-- Witness for C6 at a concrete one-primitive scene on a 40x24 image
(tiles = 3 * 2, cap not reached). -/
theorem isect_buffers_allocation_witness :
    (Event.alloc "tile_id_from_isect"
      [min (1 * (divCeil 40 TILE_WIDTH * divCeil 24 TILE_WIDTH))
        (256 * 4 * 65535)] ∈
      (render_forward trivialSem 0 (40, 24) sampleMeans sampleXyA
        sampleScales sampleQuats sampleCoeffs sampleOpac (0, 0, 0)
        false).trace) ∧
    (Event.alloc "depthsort_gid_from_isect"
      [min (1 * (divCeil 40 TILE_WIDTH * divCeil 24 TILE_WIDTH))
        (256 * 4 * 65535)] ∈
      (render_forward trivialSem 0 (40, 24) sampleMeans sampleXyA
        sampleScales sampleQuats sampleCoeffs sampleOpac (0, 0, 0)
        false).trace) := by
  have h := isect_buffers_allocation trivialSem 0 (40, 24) sampleMeans
    sampleXyA sampleScales sampleQuats sampleCoeffs sampleOpac (0, 0, 0)
    false 0 (by decide) (by decide)
  exact ⟨h.1, h.2.1⟩

theorem radixArgsort_snd_length (keys payload : List Nat) (n bits : Nat)
    (h : keys.length = payload.length) :
    (radixArgsort keys payload n bits).2.length = payload.length := by
  simp [radixArgsort, List.length_insertionSort, List.length_zip, h]
  omega

theorem drop_pred_take_one (l : List Nat) (N : Nat) (hl : l.length = N)
    (hN : 0 < N) : (l.drop (N - 1)).take 1 = [l.getD (N - 1) 0] := by
  have h : N - 1 < l.length := by omega
  rw [List.drop_eq_getElem_cons h, List.getD_eq_getElem?_getD,
    List.getElem?_eq_getElem h]
  rfl

/-- C7: the `num_intersects` scalar of `RenderAux` is the last element
(index N-1) of the inclusive prefix sum of the depth-permuted
`num_tiles_hit` array, and — `num_tiles_hit` being zero beyond the
`num_visible` compacted slots and the depth sort being a permutation —
it equals the sum of `num_tiles_hit` over the visible primitives. -/
theorem num_intersects_is_total_tile_hits (sem : KernelSem) (camera : Nat)
    (img_size : Nat × Nat)
    (means xy_dummy log_scales quats sh_coeffs raw_opacities : GTensor)
    (background : Nat × Nat × Nat) (raster_u32 : Bool) (d N : Nat)
    (fo : FwdOut)
    (hd : dimCheckOk means log_scales quats sh_coeffs raw_opacities = true)
    (hs : sh_degree_from_coeffs (sh_coeffs.shape.getD 1 0 / 3) = .ok d)
    (hN : means.shape.headD 0 = N) (hNpos : 0 < N)
    (hconf : ProjConform N (sem.projectSplats
      (projInOf camera img_size d means log_scales quats sh_coeffs
        raw_opacities)))
    (hok : (render_forward sem camera img_size means xy_dummy log_scales
      quats sh_coeffs raw_opacities background raster_u32).result = .ok fo) :
    fo.aux.cum_tiles_hit.data = inclusiveScan (int_gather
      (sem.projectSplats (projInOf camera img_size d means log_scales quats
        sh_coeffs raw_opacities)).num_tiles_hit
      (radixArgsort
        (sem.projectSplats (projInOf camera img_size d means log_scales
          quats sh_coeffs raw_opacities)).depths
        (sem.projectSplats (projInOf camera img_size d means log_scales
          quats sh_coeffs raw_opacities)).arranged_ids
        (sem.projectSplats (projInOf camera img_size d means log_scales
          quats sh_coeffs raw_opacities)).num_visible 32).2) ∧
    fo.aux.num_intersects.data =
      [fo.aux.cum_tiles_hit.data.getD (N - 1) 0] ∧
    fo.aux.cum_tiles_hit.data.getD (N - 1) 0 =
      ((sem.projectSplats (projInOf camera img_size d means log_scales
        quats sh_coeffs raw_opacities)).num_tiles_hit.take
       (sem.projectSplats (projInOf camera img_size d means log_scales
        quats sh_coeffs raw_opacities)).num_visible).sum := by
  rw [render_forward_eq_ok sem camera img_size means xy_dummy log_scales
    quats sh_coeffs raw_opacities background raster_u32 d hd hs] at hok
  set po := sem.projectSplats (projInOf camera img_size d means log_scales
    quats sh_coeffs raw_opacities) with hpo
  obtain ⟨harr, hdep, htl, hnv, hzero⟩ := hconf
  have hkp : po.depths.length = po.arranged_ids.length := by
    rw [hdep, harr, List.length_range]
  have hperm : List.Perm (radixArgsort po.depths po.arranged_ids
      po.num_visible 32).2 po.arranged_ids :=
    radixArgsort_snd_perm po.depths po.arranged_ids po.num_visible 32 hkp
  have hperm' : List.Perm (radixArgsort po.depths po.arranged_ids
      po.num_visible 32).2 (List.range N) := harr ▸ hperm
  have hcfd_len : ((radixArgsort po.depths po.arranged_ids
      po.num_visible 32).2).length = N := by
    rw [radixArgsort_snd_length po.depths po.arranged_ids po.num_visible 32
      hkp, harr, List.length_range]
  have hgath_len : (int_gather po.num_tiles_hit
      (radixArgsort po.depths po.arranged_ids po.num_visible 32).2).length
      = N := by
    simp [int_gather, hcfd_len]
  have hscan_len : (inclusiveScan (int_gather po.num_tiles_hit
      (radixArgsort po.depths po.arranged_ids po.num_visible 32).2)).length
      = N := by
    rw [inclusiveScan, length_inclusiveScanFrom, hgath_len]
  have hgath_sum : (int_gather po.num_tiles_hit
      (radixArgsort po.depths po.arranged_ids po.num_visible 32).2).sum =
      po.num_tiles_hit.sum := by
    apply gather_sum_of_perm
    rw [htl]
    exact hperm'
  have hlast : (inclusiveScan (int_gather po.num_tiles_hit
      (radixArgsort po.depths po.arranged_ids po.num_visible 32).2)).getD
      (N - 1) 0 = (po.num_tiles_hit.take po.num_visible).sum := by
    have hne : (int_gather po.num_tiles_hit
        (radixArgsort po.depths po.arranged_ids po.num_visible 32).2) ≠ [] := by
      intro hemp
      rw [hemp] at hgath_len
      simp at hgath_len
      omega
    have := inclusiveScan_last _ hne
    rw [hgath_len] at this
    rw [this, hgath_sum]
    exact sum_take_of_drop_zero po.num_tiles_hit po.num_visible hzero
  simp only [renderForwardOk, ← hpo, PanicOr.ok.injEq] at hok
  subst hok
  refine ⟨rfl, ?_, hlast⟩
  simp only [hN]
  exact drop_pred_take_one _ N hscan_len hNpos

/-- Witness for C7 at the concrete one-primitive scene. -/
theorem num_intersects_is_total_tile_hits_witness :
    (0 : Nat) < 1 ∧
    (resultFo sampleFwd).aux.num_intersects.data =
      [(resultFo sampleFwd).aux.cum_tiles_hit.data.getD (1 - 1) 0] :=
  ⟨by decide,
   (num_intersects_is_total_tile_hits trivialSem 0 (8, 8) sampleMeans
     sampleXyA sampleScales sampleQuats sampleCoeffs sampleOpac (0, 0, 0)
     false 0 1 (resultFo sampleFwd) (by decide) (by decide) (by decide)
     (by decide) (by decide) (by decide)).2.1⟩

theorem getD_replicate {α : Type} (n : Nat) (a : α) (i : Nat) (d : α)
    (h : i < n) : (List.replicate n a).getD i d = a := by
  simp [List.getD_eq_getElem?_getD, List.getElem?_replicate, h]

/-- Rows the projection-backward scatter never targets keep their
initial contents. -/
theorem projectBackwardsEffect_untouched (gfc : List Nat) (nv : Nat)
    (rows : Nat → GradRows) (bufs : GradBufs) (j : Nat)
    (h : ∀ c, c < nv → gfc.getD c 0 ≠ j) :
    (projectBackwardsEffect gfc nv rows bufs).v_means.getD j [] =
      bufs.v_means.getD j [] ∧
    (projectBackwardsEffect gfc nv rows bufs).v_xys.getD j [] =
      bufs.v_xys.getD j [] ∧
    (projectBackwardsEffect gfc nv rows bufs).v_scales.getD j [] =
      bufs.v_scales.getD j [] ∧
    (projectBackwardsEffect gfc nv rows bufs).v_quats.getD j [] =
      bufs.v_quats.getD j [] ∧
    (projectBackwardsEffect gfc nv rows bufs).v_coeffs.getD j [] =
      bufs.v_coeffs.getD j [] ∧
    (projectBackwardsEffect gfc nv rows bufs).v_opac.getD j 0 =
      bufs.v_opac.getD j 0 := by
  induction nv with
  | zero => exact ⟨rfl, rfl, rfl, rfl, rfl, rfl⟩
  | succ n ih =>
    have hne : gfc.getD n 0 ≠ j := h n (Nat.lt_succ_self n)
    have ihh := ih (fun c hc => h c (Nat.lt_succ_of_lt hc))
    unfold projectBackwardsEffect at ihh ⊢
    rw [List.range_succ, List.foldl_append, List.foldl_cons, List.foldl_nil]
    refine ⟨?_, ?_, ?_, ?_, ?_, ?_⟩ <;> simp only [scatterOne]
    · rw [getD_set_ne' _ _ hne]; exact ihh.1
    · rw [getD_set_ne' _ _ hne]; exact ihh.2.1
    · rw [getD_set_ne' _ _ hne]; exact ihh.2.2.1
    · rw [getD_set_ne' _ _ hne]; exact ihh.2.2.2.1
    · rw [getD_set_ne' _ _ hne]; exact ihh.2.2.2.2.1
    · rw [getD_set_ne' _ _ hne]; exact ihh.2.2.2.2.2

/-- C2 counterexample: on a concrete backward pass, it is false that the
six per-primitive gradient buffers and the `hit_ids` counter are all
zero-initialized before the backward kernels are dispatched — the six
gradient buffers are zero-filled only after the `RasterizeBackwards`
dispatch. -/
theorem backward_zero_init_claim_fails :
    claimC2Holds exampleBwdTrace = false := by decide

/-- C2 (amended): `hit_ids` is zero-initialized before the
`RasterizeBackwards` dispatch; the six per-primitive gradient buffers
are zero-initialized after that dispatch but before `ProjectBackwards`
— the only backward kernel that writes them — is dispatched (the trace
below shows the exact order); and every primitive the projection
backward scatter does not write, in particular every invisible one,
ends the backward pass with gradient exactly zero in every parameter. -/
theorem backward_zero_init_order_and_untouched_grads (sem : KernelSem)
    (state : GaussianBackwardState) (ckpt : Nat → GTensor)
    (v_output : GTensor) (parents : List (Option Nat)) :
    (renderBackwards sem state ckpt v_output parents).trace =
      [.alloc "v_xy_scatter"
          [state.aux.depthsort_gid_from_isect.shape.headD 0, 2],
       .alloc "v_conic_scatter"
          [state.aux.depthsort_gid_from_isect.shape.headD 0, 4],
       .alloc "v_colors_scatter"
          [state.aux.depthsort_gid_from_isect.shape.headD 0, 4],
       .zeroAlloc "hit_ids" [(ckpt state.means).shape.headD 0],
       .dispatch "RasterizeBackwards"
          ["depthsort_gid_from_isect", "compact_from_depthsort_gid",
           "tile_bins", "xys", "cum_tiles_hit", "conic_comps", "colors",
           "final_index", "out_img", "v_output"]
          ["v_xy_scatter", "v_conic_scatter", "v_colors_scatter", "hit_ids"],
       .zeroAlloc "v_means" [(ckpt state.means).shape.headD 0, 3],
       .zeroAlloc "v_scales" [(ckpt state.means).shape.headD 0, 3],
       .zeroAlloc "v_quats" [(ckpt state.means).shape.headD 0, 4],
       .zeroAlloc "v_coeffs" [(ckpt state.means).shape.headD 0,
          num_sh_coeffs state.sh_degree * 3],
       .zeroAlloc "v_opac" [(ckpt state.means).shape.headD 0],
       .zeroAlloc "v_xys" [(ckpt state.means).shape.headD 0, 2],
       .dispatch "ProjectBackwards"
          ["means", "log_scales", "quats", "raw_opac", "conic_comps",
           "cum_tiles_hit", "v_xy_scatter", "v_conic_scatter",
           "v_colors_scatter", "num_visible", "global_from_compact_gid",
           "compact_from_depthsort_gid"]
          ["v_means", "v_xys", "v_scales", "v_quats", "v_coeffs", "v_opac"]] ∧
    ∀ j, j < (ckpt state.means).shape.headD 0 →
      state.aux.num_visible.data.headD 0 ≤
        state.aux.global_from_compact_gid.data.length →
      j ∉ state.aux.global_from_compact_gid.data.take
        (state.aux.num_visible.data.headD 0) →
      (renderBackwards sem state ckpt v_output parents).bufs.v_means.getD
        j [] = List.replicate 3 0 ∧
      (renderBackwards sem state ckpt v_output parents).bufs.v_xys.getD
        j [] = List.replicate 2 0 ∧
      (renderBackwards sem state ckpt v_output parents).bufs.v_scales.getD
        j [] = List.replicate 3 0 ∧
      (renderBackwards sem state ckpt v_output parents).bufs.v_quats.getD
        j [] = List.replicate 4 0 ∧
      (renderBackwards sem state ckpt v_output parents).bufs.v_coeffs.getD
        j [] = List.replicate (num_sh_coeffs state.sh_degree * 3) 0 ∧
      (renderBackwards sem state ckpt v_output parents).bufs.v_opac.getD
        j 0 = 0 := by
  constructor
  · rfl
  · intro j hj hnv hjn
    have hprem : ∀ c, c < state.aux.num_visible.data.headD 0 →
        state.aux.global_from_compact_gid.data.getD c 0 ≠ j := by
      intro c hc heq
      apply hjn
      have hc2 : c < state.aux.global_from_compact_gid.data.length :=
        lt_of_lt_of_le hc hnv
      rw [← heq, List.getD_eq_getElem?_getD, List.getElem?_eq_getElem hc2]
      have h1 : (state.aux.global_from_compact_gid.data.take
          (state.aux.num_visible.data.headD 0))[c]? =
          some (state.aux.global_from_compact_gid.data[c]) := by
        rw [List.getElem?_take_of_lt hc, List.getElem?_eq_getElem hc2]
      exact List.getElem?_mem h1
    simp only [renderBackwards]
    refine ⟨?_, ?_, ?_, ?_, ?_, ?_⟩
    · rw [(projectBackwardsEffect_untouched _ _ _ _ j hprem).1]
      exact getD_replicate _ _ _ _ hj
    · rw [(projectBackwardsEffect_untouched _ _ _ _ j hprem).2.1]
      exact getD_replicate _ _ _ _ hj
    · rw [(projectBackwardsEffect_untouched _ _ _ _ j hprem).2.2.1]
      exact getD_replicate _ _ _ _ hj
    · rw [(projectBackwardsEffect_untouched _ _ _ _ j hprem).2.2.2.1]
      exact getD_replicate _ _ _ _ hj
    · rw [(projectBackwardsEffect_untouched _ _ _ _ j hprem).2.2.2.2.1]
      exact getD_replicate _ _ _ _ hj
    · rw [(projectBackwardsEffect_untouched _ _ _ _ j hprem).2.2.2.2.2]
      exact getD_replicate _ _ _ _ hj

/-- Witness for C2 (amended) at the two-primitive scene: the invisible
second primitive keeps zero gradients. -/
theorem backward_zero_init_order_and_untouched_grads_witness :
    (1 : Nat) < 2 ∧
    (renderBackwards trivialSem example2State example2Ckpt ⟨[8, 8, 4], []⟩
      [some 1, some 2, some 3, some 4, some 5, some 6]).bufs.v_means.getD
      1 [] = List.replicate 3 0 :=
  ⟨by decide,
   ((backward_zero_init_order_and_untouched_grads trivialSem example2State
      example2Ckpt ⟨[8, 8, 4], []⟩
      [some 1, some 2, some 3, some 4, some 5, some 6]).2 1 (by decide)
      (by decide) (by decide)).1⟩

theorem num_sh_coeffs_of_ok {K d : Nat}
    (hs : sh_degree_from_coeffs K = .ok d) : num_sh_coeffs d = K := by
  unfold sh_degree_from_coeffs at hs
  split_ifs at hs with h1 h2 h3 h4 h5
  · injection hs with h; subst h; subst h1; decide
  · injection hs with h; subst h; subst h2; decide
  · injection hs with h; subst h; subst h3; decide
  · injection hs with h; subst h; subst h4; decide
  · injection hs with h; subst h; subst h5; decide

/-- C3: the autodiff render op is prepared over exactly the six parent
nodes means, xy_dummy, log_scales, quats, sh_coeffs, raw_opacities in
that order, and the backward pass registers for each traced parent a
gradient of matching shape: [N,3], [N,2] (the screen-space `v_xys`),
[N,3], [N,4], [N,3K] and [N]. -/
theorem backward_six_parents_and_grad_shapes (sem sem2 : KernelSem)
    (camera : Nat) (img_size : Nat × Nat)
    (means xy_dummy log_scales quats sh_coeffs raw_opacity : ADTensor)
    (background : Nat × Nat × Nat) (u32 : Bool)
    (state : GaussianBackwardState) (ckpt : Nat → GTensor)
    (v_output : GTensor) (n1 n2 n3 n4 n5 n6 K N : Nat)
    (hs : sh_degree_from_coeffs K = .ok state.sh_degree)
    (hN : (ckpt state.means).shape.headD 0 = N) :
    (∀ r, adRenderGaussians sem camera img_size means xy_dummy log_scales
        quats sh_coeffs raw_opacity background u32 = .ok r →
      r.parents = [means.node, xy_dummy.node, log_scales.node, quats.node,
        sh_coeffs.node, raw_opacity.node]) ∧
    (renderBackwards sem2 state ckpt v_output
        [some n1, some n2, some n3, some n4, some n5, some n6]).registered =
      [(n1, [N, 3]), (n2, [N, 2]), (n3, [N, 3]), (n4, [N, 4]),
       (n5, [N, 3 * K]), (n6, [N])] := by
  constructor
  · intro r hr
    cases hsd : sh_degree_from_coeffs (sh_coeffs.inner.shape.getD 1 0 / 3) with
    | panicked msg =>
      simp only [adRenderGaussians, hsd] at hr
      exact absurd hr (by simp)
    | ok dd =>
      cases hfr : (render_forward sem camera img_size means.inner
          xy_dummy.inner log_scales.inner quats.inner sh_coeffs.inner
          raw_opacity.inner background u32).result with
      | panicked msg =>
        simp only [adRenderGaussians, hsd, hfr] at hr
        exact absurd hr (by simp)
      | ok fo =>
        simp only [adRenderGaussians, hsd, hfr] at hr
        split at hr <;> (cases hr; rfl)
  · have hK : num_sh_coeffs state.sh_degree = K := num_sh_coeffs_of_ok hs
    simp only [renderBackwards, registerFor]
    rw [hN, hK, Nat.mul_comm K 3]
    rfl

/-- Witness for C3 at the one-primitive scene (K = 1, degree 0). -/
theorem backward_six_parents_and_grad_shapes_witness :
    (renderBackwards trivialSem exampleState exampleCkpt ⟨[8, 8, 4], []⟩
      [some 1, some 2, some 3, some 4, some 5, some 6]).registered =
    [(1, [1, 3]), (2, [1, 2]), (3, [1, 3]), (4, [1, 4]), (5, [1, 3 * 1]),
     (6, [1])] :=
  (backward_six_parents_and_grad_shapes trivialSem trivialSem 0 (8, 8)
    (adT sampleMeans 1) (adT sampleXyA 2) (adT sampleScales 3)
    (adT sampleQuats 4) (adT sampleCoeffs 5) (adT sampleOpac 6) (0, 0, 0)
    false exampleState exampleCkpt ⟨[8, 8, 4], []⟩ 1 2 3 4 5 6 1 1
    (by decide) (by decide)).2

/-- C4: in the tracked autodiff path the saved backward state
checkpoints exactly means, log_scales, quats and raw_opacity, and does
not checkpoint sh_coeffs or xy_dummy. -/
theorem tracked_checkpoints_exactly_four (sem : KernelSem) (camera : Nat)
    (img_size : Nat × Nat)
    (means xy_dummy log_scales quats sh_coeffs raw_opacity : ADTensor)
    (background : Nat × Nat × Nat) (u32 : Bool) (r : ADRenderResult)
    (st : GaussianBackwardState)
    (hr : adRenderGaussians sem camera img_size means xy_dummy log_scales
      quats sh_coeffs raw_opacity background u32 = .ok r)
    (hst : r.state = some st)
    (hsh : sh_coeffs.node ∉
      [means.node, log_scales.node, quats.node, raw_opacity.node])
    (hxy : xy_dummy.node ∉
      [means.node, log_scales.node, quats.node, raw_opacity.node]) :
    r.checkpointed =
      [means.node, log_scales.node, quats.node, raw_opacity.node] ∧
    st.means = means.node ∧ st.log_scales = log_scales.node ∧
    st.quats = quats.node ∧ st.raw_opac = raw_opacity.node ∧
    sh_coeffs.node ∉ r.checkpointed ∧ xy_dummy.node ∉ r.checkpointed := by
  cases hsd : sh_degree_from_coeffs (sh_coeffs.inner.shape.getD 1 0 / 3) with
  | panicked msg =>
    simp only [adRenderGaussians, hsd] at hr
    exact absurd hr (by simp)
  | ok dd =>
    cases hfr : (render_forward sem camera img_size means.inner
        xy_dummy.inner log_scales.inner quats.inner sh_coeffs.inner
        raw_opacity.inner background u32).result with
    | panicked msg =>
      simp only [adRenderGaussians, hsd, hfr] at hr
      exact absurd hr (by simp)
    | ok fo =>
      simp only [adRenderGaussians, hsd, hfr] at hr
      split at hr
      · cases hr
        cases hst
        exact ⟨rfl, rfl, rfl, rfl, rfl, hsh, hxy⟩
      · cases hr
        simp at hst

/-- Witness for C4 with all six inputs traced and distinct node ids. -/
theorem tracked_checkpoints_exactly_four_witness :
    ∃ r st, adRenderGaussians trivialSem 0 (8, 8) (adT sampleMeans 1)
        (adT sampleXyA 2) (adT sampleScales 3) (adT sampleQuats 4)
        (adT sampleCoeffs 5) (adT sampleOpac 6) (0, 0, 0) false = .ok r ∧
      r.state = some st ∧ r.checkpointed = [1, 3, 4, 6] ∧
      (5 : Nat) ∉ r.checkpointed ∧ (2 : Nat) ∉ r.checkpointed := by
  have hr : adRenderGaussians trivialSem 0 (8, 8) (adT sampleMeans 1)
      (adT sampleXyA 2) (adT sampleScales 3) (adT sampleQuats 4)
      (adT sampleCoeffs 5) (adT sampleOpac 6) (0, 0, 0) false =
      .ok (resultADR) := by decide
  have h := tracked_checkpoints_exactly_four trivialSem 0 (8, 8)
    (adT sampleMeans 1) (adT sampleXyA 2) (adT sampleScales 3)
    (adT sampleQuats 4) (adT sampleCoeffs 5) (adT sampleOpac 6) (0, 0, 0)
    false resultADR resultADRState hr (by decide) (by decide) (by decide)
  exact ⟨resultADR, resultADRState, hr, by decide, h.1, h.2.2.2.2.2.1,
    h.2.2.2.2.2.2⟩

/-- C10: on the autodiff backend the output image is exactly the image
`render_forward` computes on the inner backend from the inner tensors —
whatever the tracked-ness of the inputs — and every tensor of the
returned `RenderAux` is the corresponding inner-backend tensor lifted
unchanged. -/
theorem ad_render_refines_inner (sem : KernelSem) (camera : Nat)
    (img_size : Nat × Nat)
    (means xy_dummy log_scales quats sh_coeffs raw_opacity : ADTensor)
    (background : Nat × Nat × Nat) (u32 : Bool) (fo : FwdOut)
    (hfwd : (render_forward sem camera img_size means.inner xy_dummy.inner
      log_scales.inner quats.inner sh_coeffs.inner raw_opacity.inner
      background u32).result = .ok fo) :
    ∃ r, adRenderGaussians sem camera img_size means xy_dummy log_scales
        quats sh_coeffs raw_opacity background u32 = .ok r ∧
      r.out_img.inner = fo.out_img ∧
      r.aux.num_visible.inner = fo.aux.num_visible ∧
      r.aux.num_intersects.inner = fo.aux.num_intersects ∧
      r.aux.tile_bins.inner = fo.aux.tile_bins ∧
      r.aux.cum_tiles_hit.inner = fo.aux.cum_tiles_hit ∧
      r.aux.radii_compact.inner = fo.aux.radii_compact ∧
      r.aux.conic_comps.inner = fo.aux.conic_comps ∧
      r.aux.colors.inner = fo.aux.colors ∧
      r.aux.depths.inner = fo.aux.depths ∧
      r.aux.xys.inner = fo.aux.xys ∧
      r.aux.final_index.inner = fo.aux.final_index ∧
      r.aux.depthsort_gid_from_isect.inner =
        fo.aux.depthsort_gid_from_isect ∧
      r.aux.compact_from_depthsort_gid.inner =
        fo.aux.compact_from_depthsort_gid ∧
      r.aux.global_from_compact_gid.inner =
        fo.aux.global_from_compact_gid := by
  by_cases hd : dimCheckOk means.inner log_scales.inner quats.inner
      sh_coeffs.inner raw_opacity.inner = true
  · cases hsd : sh_degree_from_coeffs (sh_coeffs.inner.shape.getD 1 0 / 3) with
    | panicked msg =>
      rw [render_forward] at hfwd
      rw [if_pos hd, hsd] at hfwd
      exact absurd hfwd (by simp)
    | ok dd =>
      simp only [adRenderGaussians, hsd, hfwd]
      split
      · exact ⟨_, rfl, rfl, rfl, rfl, rfl, rfl, rfl, rfl, rfl, rfl, rfl,
          rfl, rfl, rfl, rfl⟩
      · exact ⟨_, rfl, rfl, rfl, rfl, rfl, rfl, rfl, rfl, rfl, rfl, rfl,
          rfl, rfl, rfl, rfl⟩
  · rw [render_forward, if_neg hd] at hfwd
    exact absurd hfwd (by simp)

/-- Witness for C10 at the concrete one-primitive scene with traced
inputs. -/
theorem ad_render_refines_inner_witness :
    ∃ r, adRenderGaussians trivialSem 0 (8, 8) (adT sampleMeans 1)
        (adT sampleXyA 2) (adT sampleScales 3) (adT sampleQuats 4)
        (adT sampleCoeffs 5) (adT sampleOpac 6) (0, 0, 0) false = .ok r ∧
      r.out_img.inner = (resultFo sampleFwd).out_img := by
  obtain ⟨r, h1, h2, -⟩ := ad_render_refines_inner trivialSem 0 (8, 8)
    (adT sampleMeans 1) (adT sampleXyA 2) (adT sampleScales 3)
    (adT sampleQuats 4) (adT sampleCoeffs 5) (adT sampleOpac 6) (0, 0, 0)
    false (resultFo sampleFwd) (by decide)
  exact ⟨r, h1, h2⟩

end Brush
